import Mathlib

/-!
Verification of the Campus Lost & Found server against its specification.

The repository contains three progressively evolving Express/Mongoose server
variants:
  * `server.js`      — earliest: bcrypt-hashed passwords, hardcoded university
                        list, no explicit duplicate-email check;
  * `part_001`       — middle: bcrypt-hashed passwords, hardcoded university
                        list, explicit duplicate-email check, Cloudinary upload;
  * `part_000`       — latest: DB-backed University registry, but passwords
                        stored in plain text (the source comments
                        "Storing Plain Text"), field-presence validation on
                        signup, auto-login after signup, edit/update routes.

We shallowly embed the request handlers as pure Lean functions over explicit
state (user list, item list, university registry, session).  MongoDB ObjectIds
are modelled as naturals; `findOne`/`findById` become `List.find?`; `save` of a
new document appends; `save` of a fetched-and-mutated document replaces the
entry with the same id; `findByIdAndDelete` removes entries with that id;
`.sort(\x7bcreatedAt: -1\x7d)` becomes insertion sort by descending `createdAt`.
Express form fields absent from the body and empty strings are both falsy in
the JavaScript `if (!x)` checks, so a missing field is modelled as `""` where
the code only tests truthiness, and optional query parameters are modelled as
`Option String` with the truthiness test made explicit.
-/

/-- The session identity established at login/signup:
`req.session.user = { id, name, email }`. -/
structure SessionUser where
  id : Nat
  name : String
  email : String
deriving Repr, DecidableEq

/-- A `User` document: `UserSchema` (name, email unique, password). -/
structure User where
  id : Nat
  name : String
  email : String
  password : String
deriving Repr, DecidableEq

/-- An `Item` document: `ItemSchema` with `timestamps: true`
(`createdAt`/`updatedAt`, modelled as naturals). -/
structure Item where
  id : Nat
  name : String
  description : String
  status : String
  category : String
  university : String
  imageUrl : String
  contactEmail : String
  contactPhone : String
  reportedBy : Nat
  createdAt : Nat
  updatedAt : Nat
deriving Repr, DecidableEq

/-- The observable HTTP response of a handler: `res.redirect(loc)`,
`res.render(view, locals)` (we keep the error local when present),
`res.status(code).send(body)`, or a bare `res.send(body)`. -/
inductive Response where
  | redirect (loc : String)
  | render (view : String) (error : Option String)
  | statusSend (code : Nat) (body : String)
  | send (body : String)
deriving Repr, DecidableEq

/-- `User.findOne(\x7b email \x7d)`: first stored user with exactly that email. -/
def findOneByEmail (users : List User) (email : String) : Option User :=
  users.find? (fun u => u.email == email)

/-- `Item.findById(id)`: first stored item with that id. -/
def findById (items : List Item) (id : Nat) : Option Item :=
  items.find? (fun it => it.id == id)

/-- JavaScript truthiness of an optional string field: `undefined` and `""`
are falsy, everything else truthy. -/
def truthy : Option String → Bool
  | none => false
  | some s => !(s == "")

/-- The characters of a string, lower-cased (the character data of
`String.toLower`, kept at the character-list level). -/
def lowerChars (s : String) : List Char := s.data.map Char.toLower

/-- Case-insensitive equality of strings, as the `$regex` existence check
with the `i` option performs on a literal university name. -/
def ciEq (a b : String) : Bool := lowerChars a == lowerChars b

/-- Character-list prefix test. -/
def isPrefixCh : List Char → List Char → Bool
  | [], _ => true
  | _ :: _, [] => false
  | a :: as, b :: bs => a == b && isPrefixCh as bs

/-- Character-list infix (contiguous substring) test. -/
def isInfixCh (pat : List Char) : List Char → Bool
  | [] => isPrefixCh pat []
  | b :: rest => isPrefixCh pat (b :: rest) || isInfixCh pat rest

/-- Case-insensitive substring test: the effect of
`name: \x7b $regex: search, $options: 'i' \x7d` for a literal search term. -/
def containsCI (hay pat : String) : Bool :=
  isInfixCh (lowerChars pat) (lowerChars hay)

/-- The Mongo query built by `GET /items`: exact `university` match, plus a
`status` filter and a case-insensitive name-substring filter, each added only
when the corresponding query parameter is truthy
(`if (status) query.status = status; if (search) query.name = ...`). -/
def itemsQueryPred (u : String) (st se : Option String) (it : Item) : Bool :=
  (it.university == u)
    && (match st with
        | none => true
        | some s => s == "" || it.status == s)
    && (match se with
        | none => true
        | some s => s == "" || containsCI it.name s)

/-- The ordering `.sort(\x7b createdAt: -1 \x7d)`: `a` before `b` when `a` was
created no earlier than `b` (newest first). -/
def newerFirst (a b : Item) : Prop := b.createdAt ≤ a.createdAt

instance : DecidableRel newerFirst := fun a b => Nat.decLe b.createdAt a.createdAt

instance : IsTotal Item newerFirst :=
  ⟨fun a b => Nat.le_total b.createdAt a.createdAt⟩

instance : IsTrans Item newerFirst :=
  ⟨fun _ _ _ hab hbc => Nat.le_trans hbc hab⟩

/-- `Item.find(query).sort(\x7b createdAt: -1 \x7d)` for the `GET /items`
query: the stored items matching the filters, newest first. -/
def listByUniversity (items : List Item) (u : String) (st se : Option String) :
    List Item :=
  List.insertionSort newerFirst (items.filter (itemsQueryPred u st se))

/-- `GET /items` of the latest variant (`part_000`): first the auth check
(`if (!req.session.user) return res.redirect('/login?error=must_login')`),
then `if (!university) return res.redirect('/')`, then the query.  The second
component records the item list computed by querying the store (`none` when
the handler returned without querying). -/
def getItems_part000 (items : List Item) (sess : Option SessionUser)
    (university st se : Option String) : Response × Option (List Item) :=
  match sess with
  | none => (.redirect "/login?error=must_login", none)
  | some _ =>
      if !truthy university then (.redirect "/", none)
      else
        let result := listByUniversity items (university.getD "") st se
        (.render "items" none, some result)

/-- `GET /items` of the middle variant (`part_001`): no auth check;
`if (!university) return res.redirect('/')`, then the query. -/
def getItems_part001 (items : List Item) (university st se : Option String) :
    Response × Option (List Item) :=
  if !truthy university then (.redirect "/", none)
  else
    let result := listByUniversity items (university.getD "") st se
    (.render "items" none, some result)

/-- `POST /add-university` (latest variant): case-insensitive existence check
via `$regex ^name$ i`; `if (!exists && newUniversity)` save the new name with
its original casing.  The registry is the list of stored university names. -/
def addIfAbsent (regs : List String) (name : String) : List String :=
  if !(regs.any (fun r => ciEq r name)) && !(name == "") then regs ++ [name]
  else regs

/-- `POST /signup` of the latest variant (`part_000`): rejects when any of
name/email/password is missing or empty, then checks for a duplicate email,
otherwise saves the user with the password stored verbatim
(the schema comments "Storing Plain Text") and auto-logs-in.
`freshId` models the ObjectId Mongo assigns to the saved document. -/
def signup_part000 (users : List User) (sess : Option SessionUser)
    (name email password : String) (freshId : Nat) :
    Response × List User × Option SessionUser :=
  if email == "" || name == "" || password == "" then
    (.send "Error: All fields are required.", users, sess)
  else
    match findOneByEmail users email with
    | some _ => (.redirect "/login?error=email_exists", users, sess)
    | none =>
        let savedUser : User := { id := freshId, name, email, password }
        (.redirect "/", users ++ [savedUser],
          some { id := freshId, name, email })

/-- `POST /signup` of the middle variant (`part_001`): duplicate-email check,
then stores `bcrypt.hash(password, 10)` and redirects to `/login` (no
session).  The bcrypt hash is an external library call, modelled as an
abstract function `hash`. -/
def signup_part001 (hash : String → String) (users : List User)
    (name email password : String) (freshId : Nat) : Response × List User :=
  match findOneByEmail users email with
  | some _ => (.statusSend 400 "An account with this email already exists.", users)
  | none =>
      (.redirect "/login",
        users ++ [{ id := freshId, name, email, password := hash password }])

/-- `POST /login` of the latest variant (`part_000`): looks up by exact email;
`if (user && user.password === password)` establishes the session and
redirects home, otherwise re-renders the login form with the error message. -/
def login_part000 (users : List User) (sess : Option SessionUser)
    (email password : String) : Response × Option SessionUser :=
  match findOneByEmail users email with
  | some user =>
      if user.password == password then
        (.redirect "/", some { id := user.id, name := user.name, email := user.email })
      else
        (.render "login" (some "Invalid email or password."), sess)
  | none => (.render "login" (some "Invalid email or password."), sess)

/-- `POST /login` of the middle variant (`part_001`): looks up by exact email;
`if (user && await bcrypt.compare(password, user.password))` establishes the
session, otherwise responds 401.  `verify password stored` models
`bcrypt.compare(password, stored)`. -/
def login_part001 (verify : String → String → Bool) (users : List User)
    (sess : Option SessionUser) (email password : String) :
    Response × Option SessionUser :=
  match findOneByEmail users email with
  | some user =>
      if verify password user.password then
        (.redirect "/", some { id := user.id, name := user.name, email := user.email })
      else
        (.statusSend 401 "Invalid email or password.", sess)
  | none => (.statusSend 401 "Invalid email or password.", sess)

/-- The form body of `POST /items/:id/update`:
`const \x7b status, itemName, description, category, university, contactEmail,
contactPhone \x7d = req.body`. -/
structure UpdateBody where
  status : String
  itemName : String
  description : String
  category : String
  university : String
  contactEmail : String
  contactPhone : String
deriving Repr, DecidableEq

/-- The field assignments of the update handler on the fetched item: the seven
mutable fields are overwritten, `imageUrl` is replaced only when a new file
was uploaded (`if (req.file) ... item.imageUrl = result.secure_url`), and
`save()` with `timestamps: true` refreshes `updatedAt` while `createdAt` and
`reportedBy` are untouched.  `file` is the Cloudinary secure URL of the newly
uploaded image, when one was supplied. -/
def applyUpdate (item : Item) (body : UpdateBody) (file : Option String)
    (now : Nat) : Item :=
  { item with
    name := body.itemName
    description := body.description
    status := body.status
    category := body.category
    university := body.university
    contactEmail := body.contactEmail
    contactPhone := body.contactPhone
    imageUrl := match file with
      | some url => url
      | none => item.imageUrl
    updatedAt := now }

/-- `POST /items/:id/update` of the latest variant (`part_000`): 404 when the
item does not exist, 403 when the requester is not the owner
(`item.reportedBy.toString() !== req.session.user.id`), otherwise applies the
update and saves, replacing the stored document with that id. -/
def updateItem_part000 (items : List Item) (sessUserId : Nat) (id : Nat)
    (body : UpdateBody) (file : Option String) (now : Nat) :
    Response × List Item :=
  match findById items id with
  | none => (.statusSend 404 "Item not found", items)
  | some item =>
      if item.reportedBy != sessUserId then
        (.statusSend 403 "Unauthorized", items)
      else
        let item' := applyUpdate item body file now
        (.redirect "/my-posts",
          items.map (fun it => if it.id == id then item' else it))

/-- `POST /items/:id/delete` of the latest variant (`part_000`): 404 when the
item does not exist, 403 when the requester is not the owner, otherwise
`Item.findByIdAndDelete(id)`. -/
def deleteItem_part000 (items : List Item) (sessUserId : Nat) (id : Nat) :
    Response × List Item :=
  match findById items id with
  | none => (.statusSend 404 "Not found.", items)
  | some item =>
      if item.reportedBy != sessUserId then
        (.statusSend 403 "Unauthorized.", items)
      else
        (.redirect "/my-posts", items.filter (fun it => !(it.id == id)))

/-! Concrete sample data used to instantiate the theorems below. -/

/-- A sample stored user ("Ann" from the spec's login scenario). -/
def annUser : User :=
  { id := 1, name := "Ann", email := "ann@x.edu", password := "pw1" }

/-- A sample session for a second user. -/
def bobSession : SessionUser := { id := 2, name := "Bob", email := "bob@x.edu" }

/-- A sample item owned by user 1, at MIT. -/
def bottleItem : Item :=
  { id := 10, name := "Blue Bottle", description := "left at library"
    status := "Lost", category := "Accessories", university := "MIT"
    imageUrl := "http://img/1", contactEmail := "ann@x.edu"
    contactPhone := "111", reportedBy := 1, createdAt := 100, updatedAt := 100 }

/-- A sample item owned by user 2, at a different university. -/
def chargerItem : Item :=
  { id := 11, name := "Dell Charger", description := "found in lab"
    status := "Found", category := "Electronics", university := "IIT Madras"
    imageUrl := "http://img/2", contactEmail := "bob@x.edu"
    contactPhone := "222", reportedBy := 2, createdAt := 200, updatedAt := 200 }

/-- A sample update form body. -/
def sampleBody : UpdateBody :=
  { status := "Found", itemName := "Blue Hydro Flask"
    description := "recovered", category := "Accessories"
    university := "MIT", contactEmail := "ann2@x.edu", contactPhone := "333" }

/-! ## Claim theorems -/

/-- C10: every signup request of the canonical variant in which any of name,
email, or password is missing or empty is rejected before touching the user
store: the response is the validation error, no user record is persisted, and
no session is established. -/
theorem signup_missing_field_rejected (users : List User)
    (sess : Option SessionUser) (name email password : String) (fid : Nat)
    (h : name = "" ∨ email = "" ∨ password = "") :
    signup_part000 users sess name email password fid =
      (.send "Error: All fields are required.", users, sess) := by
  rcases h with h | h | h <;> simp [signup_part000, h]

/-- C10 witness: a concrete signup with an empty name is rejected and leaves
the store and session untouched. -/
theorem signup_missing_field_rejected_witness :
    signup_part000 [annUser] none "" "zoe@x.edu" "pw9" 7 =
      (.send "Error: All fields are required.", [annUser], none) :=
  signup_missing_field_rejected [annUser] none "" "zoe@x.edu" "pw9" 7 (Or.inl rfl)

/-- C2: for every item id and requester, `POST /items/:id/update` and
`POST /items/:id/delete` fail with 404 when no stored item has that id and
with 403 when the stored item's `reportedBy` differs from the requester, and
in both cases the item store is returned completely unchanged. -/
theorem update_delete_missing_or_nonowner_unchanged (items : List Item)
    (uid id : Nat) (body : UpdateBody) (file : Option String) (now : Nat) :
    (findById items id = none →
      updateItem_part000 items uid id body file now =
        (.statusSend 404 "Item not found", items) ∧
      deleteItem_part000 items uid id = (.statusSend 404 "Not found.", items)) ∧
    (∀ item, findById items id = some item → item.reportedBy ≠ uid →
      updateItem_part000 items uid id body file now =
        (.statusSend 403 "Unauthorized", items) ∧
      deleteItem_part000 items uid id =
        (.statusSend 403 "Unauthorized.", items)) := by
  constructor
  · intro h
    constructor <;> simp [updateItem_part000, deleteItem_part000, h]
  · intro item h hne
    constructor <;> simp [updateItem_part000, deleteItem_part000, h, hne]

/-- C2 witness: a concrete missing id yields 404 from update, and a concrete
non-owner delete yields 403, both leaving the store unchanged. -/
theorem update_delete_missing_or_nonowner_unchanged_witness :
    updateItem_part000 [] 1 0 sampleBody none 5 =
      (.statusSend 404 "Item not found", []) ∧
    deleteItem_part000 [chargerItem] 1 11 =
      (.statusSend 403 "Unauthorized.", [chargerItem]) :=
  ⟨((update_delete_missing_or_nonowner_unchanged [] 1 0 sampleBody none 5).1
      rfl).1,
   ((update_delete_missing_or_nonowner_unchanged [chargerItem] 1 11 sampleBody
      none 5).2 chargerItem rfl (by decide)).2⟩

/-- C8: when the owner updates an existing item, the seven mutable fields are
overwritten with the submitted values, `imageUrl` is replaced exactly when a
new image was supplied, and `reportedBy` and `createdAt` are unchanged; the
store is updated by replacing the document with that id. -/
theorem update_owner_frame_conditions (items : List Item) (uid id : Nat)
    (item : Item) (body : UpdateBody) (file : Option String) (now : Nat)
    (hfound : findById items id = some item) (howner : item.reportedBy = uid) :
    updateItem_part000 items uid id body file now =
      (.redirect "/my-posts",
        items.map (fun it => if it.id == id then applyUpdate item body file now
                             else it)) ∧
    (applyUpdate item body file now).reportedBy = item.reportedBy ∧
    (applyUpdate item body file now).createdAt = item.createdAt ∧
    (applyUpdate item body file now).imageUrl =
      (match file with | some url => url | none => item.imageUrl) ∧
    (applyUpdate item body file now).name = body.itemName ∧
    (applyUpdate item body file now).description = body.description ∧
    (applyUpdate item body file now).status = body.status ∧
    (applyUpdate item body file now).category = body.category ∧
    (applyUpdate item body file now).university = body.university ∧
    (applyUpdate item body file now).contactEmail = body.contactEmail ∧
    (applyUpdate item body file now).contactPhone = body.contactPhone := by
  refine ⟨?_, rfl, rfl, rfl, rfl, rfl, rfl, rfl, rfl, rfl, rfl⟩
  simp [updateItem_part000, hfound, howner, applyUpdate]

/-- C8 witness: a concrete owner update with no new image keeps the old
`imageUrl`, keeps `reportedBy` and `createdAt`, and overwrites the mutable
fields. -/
theorem update_owner_frame_conditions_witness :
    updateItem_part000 [bottleItem] 1 10 sampleBody none 150 =
      (.redirect "/my-posts",
        [bottleItem].map (fun it => if it.id == 10 then
          applyUpdate bottleItem sampleBody none 150 else it)) ∧
    (applyUpdate bottleItem sampleBody none 150).reportedBy =
      bottleItem.reportedBy ∧
    (applyUpdate bottleItem sampleBody none 150).imageUrl =
      bottleItem.imageUrl :=
  ⟨(update_owner_frame_conditions [bottleItem] 1 10 bottleItem sampleBody none
      150 rfl rfl).1,
   (update_owner_frame_conditions [bottleItem] 1 10 bottleItem sampleBody none
      150 rfl rfl).2.1,
   (update_owner_frame_conditions [bottleItem] 1 10 bottleItem sampleBody none
      150 rfl rfl).2.2.2.1⟩

/-- C7 counterexample: in the latest variant an unauthenticated `GET /items`
request with the university parameter absent is redirected to the login page,
not to the landing selection entry point `/` (though the store is still not
queried). -/
theorem items_unauthenticated_missing_university_not_home :
    (getItems_part000 [] none none none none).1 =
      .redirect "/login?error=must_login" ∧
    (getItems_part000 [] none none none none).1 ≠ Response.redirect "/" := by
  constructor
  · rfl
  · decide

/-- C7 (amended): for every `GET /items` request whose university parameter is
absent (or empty), the handler redirects to `/` without querying the item
store — unconditionally in the middle variant, and for authenticated requests
in the latest variant (an unauthenticated request is first redirected to the
login page, also without querying). -/
theorem items_missing_university_redirects_home (items : List Item)
    (su : SessionUser) (university st se : Option String)
    (h : truthy university = false) :
    getItems_part000 items (some su) university st se = (.redirect "/", none) ∧
    getItems_part001 items university st se = (.redirect "/", none) ∧
    getItems_part000 items none university st se =
      (.redirect "/login?error=must_login", none) := by
  refine ⟨?_, ?_, rfl⟩ <;> simp [getItems_part000, getItems_part001, h]

/-- C7 witness: a concrete authenticated request with no university parameter
is redirected to `/` and no item list is computed. -/
theorem items_missing_university_redirects_home_witness :
    getItems_part000 [bottleItem] (some bobSession) none none none =
      (.redirect "/", none) :=
  (items_missing_university_redirects_home [bottleItem] bobSession none none
    none rfl).1

/-- C1 counterexample: the DB-backed-registry variant stores the submitted
password verbatim — after a fresh signup the stored password field equals the
submitted plaintext `"pw1"`. -/
theorem signup_db_variant_stores_plaintext_password :
    (signup_part000 [] none "Ann" "ann@x.edu" "pw1" 1).2.1 =
      [{ id := 1, name := "Ann", email := "ann@x.edu", password := "pw1" }] ∧
    ((signup_part000 [] none "Ann" "ann@x.edu" "pw1" 1).2.1.map
        User.password) = ["pw1"] := by
  constructor <;> rfl

/-- C1 (amended): the hashed-password behaviour holds in the bcrypt variant:
for every fresh email, signup stores `hash password` (the bcrypt digest) as
the password field, and — since a bcrypt digest differs from its input — the
newly stored record's password does not equal the submitted plaintext. -/
theorem signup_bcrypt_variant_stores_hash (hash : String → String)
    (users : List User) (name email password : String) (fid : Nat)
    (hfresh : findOneByEmail users email = none)
    (hne : hash password ≠ password) :
    (signup_part001 hash users name email password fid).2 =
      users ++ [{ id := fid, name, email, password := hash password }] ∧
    ∀ u ∈ (signup_part001 hash users name email password fid).2,
      u ∉ users → u.password ≠ password := by
  constructor
  · simp [signup_part001, hfresh]
  · intro u hu hnotin
    rw [signup_part001, hfresh] at hu
    rcases List.mem_append.mp hu with h | h
    · exact absurd h hnotin
    · rcases List.mem_singleton.mp h with rfl
      simpa using hne

/-- C1 witness: with a concrete stand-in hash function, a concrete fresh
signup in the bcrypt variant stores the digest, not the plaintext. -/
theorem signup_bcrypt_variant_stores_hash_witness :
    (signup_part001 (fun _ => "HASH") [] "Ann" "ann@x.edu" "pw1" 1).2 =
      [{ id := 1, name := "Ann", email := "ann@x.edu", password := "HASH" }] :=
  (signup_bcrypt_variant_stores_hash (fun _ => "HASH") [] "Ann" "ann@x.edu"
    "pw1" 1 rfl (by decide)).1

/-- C9: a failed login with an unknown email and a failed login with a
registered email but wrong password produce identical responses (and leave the
session as it was), in both the plaintext variant and the bcrypt variant, so
the login interface does not reveal whether an account exists. -/
theorem login_failure_responses_identical (verify : String → String → Bool)
    (users : List User) (sess : Option SessionUser)
    (e1 p1 e2 p2 : String) (u : User)
    (h1 : findOneByEmail users e1 = none)
    (h2 : findOneByEmail users e2 = some u)
    (hbad : u.password ≠ p2) (hbadv : verify p2 u.password = false) :
    login_part000 users sess e1 p1 = login_part000 users sess e2 p2 ∧
    login_part001 verify users sess e1 p1 =
      login_part001 verify users sess e2 p2 ∧
    login_part000 users sess e1 p1 =
      (.render "login" (some "Invalid email or password."), sess) ∧
    login_part001 verify users sess e1 p1 =
      (.statusSend 401 "Invalid email or password.", sess) := by
  refine ⟨?_, ?_, ?_, ?_⟩ <;>
    simp [login_part000, login_part001, h1, h2, hbad, hbadv]

/-- C9 witness: against a concrete store holding only Ann's record, the
unknown-email failure and the wrong-password failure responses coincide. -/
theorem login_failure_responses_identical_witness :
    login_part000 [annUser] none "zoe@x.edu" "pw1" =
      login_part000 [annUser] none "ann@x.edu" "wrong" ∧
    login_part000 [annUser] none "zoe@x.edu" "pw1" =
      (.render "login" (some "Invalid email or password."), none) :=
  ⟨(login_failure_responses_identical (fun _ _ => false) [annUser] none
      "zoe@x.edu" "pw1" "ann@x.edu" "wrong" annUser (by decide) (by decide)
      (by decide) rfl).1,
   (login_failure_responses_identical (fun _ _ => false) [annUser] none
      "zoe@x.edu" "pw1" "ann@x.edu" "wrong" annUser (by decide) (by decide)
      (by decide) rfl).2.2.1⟩

/-- C3 counterexample: in the latest variant, a signup attempt that reuses an
existing record's email but leaves the name empty is rejected by the
field-presence validation, not with the DuplicateEmail outcome
(`/login?error=email_exists`); so not *every* attempt with a taken email
produces DuplicateEmail. -/
theorem signup_duplicate_with_empty_name_not_duplicate_error :
    (signup_part000 [annUser] none "" "ann@x.edu" "pw2" 2).1 =
      .send "Error: All fields are required." ∧
    (signup_part000 [annUser] none "" "ann@x.edu" "pw2" 2).1 ≠
      Response.redirect "/login?error=email_exists" := by
  constructor
  · rfl
  · decide

/-- C3 (amended): for every stored user and every signup attempt reusing that
user's email — with all fields non-empty in the latest variant, whose
field-presence validation otherwise fires first — the signup fails with the
DuplicateEmail outcome, no new user is created, the whole user store
(in particular the existing record) is unchanged, and no session is
established; in the bcrypt variant the same holds unconditionally, with a 400
response. -/
theorem signup_duplicate_email_rejected_unchanged (hash : String → String)
    (users : List User) (sess : Option SessionUser) (u : User)
    (name email password : String) (fid fid' : Nat)
    (hu : u ∈ users) (hemail : u.email = email) :
    (name ≠ "" → email ≠ "" → password ≠ "" →
      signup_part000 users sess name email password fid =
        (.redirect "/login?error=email_exists", users, sess)) ∧
    signup_part001 hash users name email password fid' =
      (.statusSend 400 "An account with this email already exists.", users) := by
  have hsome : (findOneByEmail users email).isSome := by
    rw [findOneByEmail, List.find?_isSome]
    exact ⟨u, hu, by simp [hemail]⟩
  obtain ⟨w, hw⟩ := Option.isSome_iff_exists.mp hsome
  constructor
  · intro hn he hp
    simp [signup_part000, hw, hn, he, hp]
  · simp [signup_part001, hw]

/-- C3 witness: a concrete re-signup with Ann's email fails with the
DuplicateEmail outcome in both variants and leaves the store unchanged; in
the bcrypt variant even an attempt with an empty name is rejected the same
way. -/
theorem signup_duplicate_email_rejected_unchanged_witness :
    signup_part000 [annUser] none "Ann2" "ann@x.edu" "pw2" 2 =
      (.redirect "/login?error=email_exists", [annUser], none) ∧
    signup_part001 (fun _ => "HASH") [annUser] "" "ann@x.edu" "pw2" 2 =
      (.statusSend 400 "An account with this email already exists.",
        [annUser]) :=
  ⟨(signup_duplicate_email_rejected_unchanged (fun _ => "HASH") [annUser] none
      annUser "Ann2" "ann@x.edu" "pw2" 2 2 (by decide) rfl).1 (by decide)
      (by decide) (by decide),
   (signup_duplicate_email_rejected_unchanged (fun _ => "HASH") [annUser] none
      annUser "" "ann@x.edu" "pw2" 2 2 (by decide) rfl).2⟩

/-- C5: adding a non-empty university name `N` to a registry with no
case-insensitive match for it, and then adding any `M` equal to `N` up to
letter case, yields the registry extended with exactly one entry for that
name, stored with the original casing `N` of the first call. -/
theorem addIfAbsent_case_insensitive_single_entry (regs : List String)
    (N M : String) (hN : N ≠ "")
    (habsent : ∀ r ∈ regs, ciEq r N = false)
    (hMN : lowerChars M = lowerChars N) :
    addIfAbsent (addIfAbsent regs N) M = regs ++ [N] ∧
    (regs ++ [N]).filter (fun r => ciEq r N) = [N] := by
  have hany : regs.any (fun r => ciEq r N) = false := by
    rw [List.any_eq_false]
    intro r hr
    simp [habsent r hr]
  have h1 : addIfAbsent regs N = regs ++ [N] := by
    simp [addIfAbsent, hany, hN]
  have hciNM : ciEq N M = true := by
    simp [ciEq, hMN]
  have h2 : addIfAbsent (regs ++ [N]) M = regs ++ [N] := by
    simp [addIfAbsent, List.any_append, hciNM]
  refine ⟨by rw [h1, h2], ?_⟩
  have hfregs : regs.filter (fun r => ciEq r N) = [] := by
    rw [List.filter_eq_nil_iff]
    intro r hr
    simp [habsent r hr]
  rw [List.filter_append, hfregs]
  simp [ciEq]

/-- C5 witness: `addIfAbsent("MIT")` then `addIfAbsent("mit")` on an empty
registry yields exactly the single entry `"MIT"`, with the first call's
casing. -/
theorem addIfAbsent_case_insensitive_single_entry_witness :
    addIfAbsent (addIfAbsent [] "MIT") "mit" = ["MIT"] ∧
    (["MIT"] : List String).filter (fun r => ciEq r "MIT") = ["MIT"] :=
  addIfAbsent_case_insensitive_single_entry [] "MIT" "mit" (by decide)
    (fun r hr => absurd hr (List.not_mem_nil r)) (by decide)

/-- With the schema's unique-email index in force, `User.findOne` by an email
returns exactly the stored user carrying that email. -/
theorem findOneByEmail_eq_some (users : List User) (u : User) (email : String)
    (huniq : users.Pairwise (fun a b => a.email ≠ b.email))
    (hu : u ∈ users) (he : u.email = email) :
    findOneByEmail users email = some u := by
  induction users with
  | nil => cases hu
  | cons v vs ih =>
      rcases List.mem_cons.mp hu with rfl | hu'
      · simp [findOneByEmail, List.find?_cons, he]
      · have hpair := List.pairwise_cons.mp huniq
        have hv : (v.email == email) = false := by
          simp only [beq_eq_false_iff_ne]
          exact he ▸ hpair.1 u hu'
        have hrec := ih hpair.2 hu'
        simpa [findOneByEmail, List.find?_cons, hv] using hrec

/-- C6: with unique stored emails, login succeeds and establishes the session
identity of the matching user exactly when a user with that exact email is
stored and the stored credential verifies against the supplied password
(string equality in the plaintext variant, `bcrypt.compare` in the bcrypt
variant); in every other case it responds with the authentication-failure
response and leaves the session as it was. -/
theorem login_succeeds_iff_credentials_match (verify : String → String → Bool)
    (users : List User) (sess : Option SessionUser) (email password : String)
    (huniq : users.Pairwise (fun a b => a.email ≠ b.email)) :
    (∀ u ∈ users, u.email = email → u.password = password →
      login_part000 users sess email password =
        (.redirect "/", some { id := u.id, name := u.name, email := u.email })) ∧
    ((∀ u ∈ users, u.email = email → u.password ≠ password) →
      login_part000 users sess email password =
        (.render "login" (some "Invalid email or password."), sess)) ∧
    (∀ u ∈ users, u.email = email → verify password u.password = true →
      login_part001 verify users sess email password =
        (.redirect "/", some { id := u.id, name := u.name, email := u.email })) ∧
    ((∀ u ∈ users, u.email = email → verify password u.password = false) →
      login_part001 verify users sess email password =
        (.statusSend 401 "Invalid email or password.", sess)) := by
  refine ⟨?_, ?_, ?_, ?_⟩
  · intro u hu he hp
    rw [login_part000, findOneByEmail_eq_some users u email huniq hu he]
    simp [hp]
  · intro hall
    cases hfind : findOneByEmail users email with
    | none => simp [login_part000, hfind]
    | some w =>
        have hwmem : w ∈ users := List.mem_of_find?_eq_some hfind
        have hwemail : w.email = email := by
          have := List.find?_some hfind
          simpa using this
        have hw := hall w hwmem hwemail
        simp [login_part000, hfind, hw]
  · intro u hu he hp
    rw [login_part001, findOneByEmail_eq_some users u email huniq hu he]
    simp [hp]
  · intro hall
    cases hfind : findOneByEmail users email with
    | none => simp [login_part001, hfind]
    | some w =>
        have hwmem : w ∈ users := List.mem_of_find?_eq_some hfind
        have hwemail : w.email = email := by
          have := List.find?_some hfind
          simpa using this
        have hw := hall w hwmem hwemail
        simp [login_part001, hfind, hw]

/-- C6 witness: the spec's scenario — Ann logs in with the right password and
the session identity becomes Ann's; the wrong password fails with the
authentication-failure response and no session. -/
theorem login_succeeds_iff_credentials_match_witness :
    login_part000 [annUser] none "ann@x.edu" "pw1" =
      (.redirect "/", some { id := 1, name := "Ann", email := "ann@x.edu" }) ∧
    login_part000 [annUser] none "ann@x.edu" "wrong" =
      (.render "login" (some "Invalid email or password."), none) :=
  ⟨(login_succeeds_iff_credentials_match (fun _ _ => false) [annUser] none
      "ann@x.edu" "pw1" (by simp)).1 annUser (by decide) rfl rfl,
   (login_succeeds_iff_credentials_match (fun _ _ => false) [annUser] none
      "ann@x.edu" "wrong" (by simp)).2.1 (by decide)⟩

/-- The Mongo query predicate of `GET /items`, characterised propositionally:
exact university match, plus exact status and case-insensitive name-substring
restrictions whenever the corresponding parameter was given (non-empty). -/
theorem itemsQueryPred_eq_true_iff (u : String) (st se : Option String)
    (it : Item) :
    itemsQueryPred u st se it = true ↔
      (it.university = u ∧
       (∀ s, st = some s → s ≠ "" → it.status = s) ∧
       (∀ s, se = some s → s ≠ "" → containsCI it.name s = true)) := by
  cases st <;> cases se <;>
    simp [itemsQueryPred, or_iff_not_imp_left, and_assoc]

/-- C4: `GET /items` returns exactly the stored items whose `university`
field equals the requested value exactly — further restricted, when the
status filter or search parameter is given (non-empty), to items whose
`status` equals the filter exactly and whose name contains the search string
case-insensitively — as a list ordered newest-first by creation time; in
particular it never returns an item whose `university` field differs from the
requested value. -/
theorem listByUniversity_exact_filter_sorted (items : List Item) (u : String)
    (st se : Option String) :
    List.Perm (listByUniversity items u st se)
      (items.filter (itemsQueryPred u st se)) ∧
    List.Sorted newerFirst (listByUniversity items u st se) ∧
    (∀ it, it ∈ listByUniversity items u st se ↔
      (it ∈ items ∧ it.university = u ∧
       (∀ s, st = some s → s ≠ "" → it.status = s) ∧
       (∀ s, se = some s → s ≠ "" → containsCI it.name s = true))) ∧
    (∀ it ∈ listByUniversity items u st se, it.university = u) := by
  have hperm :=
    List.perm_insertionSort newerFirst (items.filter (itemsQueryPred u st se))
  have hiff : ∀ it, it ∈ listByUniversity items u st se ↔
      (it ∈ items ∧ it.university = u ∧
       (∀ s, st = some s → s ≠ "" → it.status = s) ∧
       (∀ s, se = some s → s ≠ "" → containsCI it.name s = true)) := by
    intro it
    rw [listByUniversity, hperm.mem_iff, List.mem_filter,
      itemsQueryPred_eq_true_iff]
  exact ⟨hperm, List.sorted_insertionSort _ _, hiff,
    fun it hit => ((hiff it).mp hit).2.1⟩

/-- C4 witness: with a concrete store holding an MIT item and an IIT Madras
item, the query for MIT with status `Lost` and search `"blue"` contains the
MIT "Blue Bottle" item. -/
theorem listByUniversity_exact_filter_sorted_witness :
    bottleItem ∈
      listByUniversity [chargerItem, bottleItem] "MIT" (some "Lost")
        (some "blue") ∧
    chargerItem ∉
      listByUniversity [chargerItem, bottleItem] "MIT" (some "Lost")
        (some "blue") :=
  ⟨((listByUniversity_exact_filter_sorted [chargerItem, bottleItem] "MIT"
      (some "Lost") (some "blue")).2.2.1 bottleItem).mpr
      ⟨by decide, rfl,
       fun s hs hne => by cases hs; rfl,
       fun s hs hne => by cases hs; decide⟩,
   fun hmem =>
     by cases ((listByUniversity_exact_filter_sorted [chargerItem, bottleItem]
          "MIT" (some "Lost") (some "blue")).2.2.1 chargerItem).mp hmem with
        | intro h1 h2 => exact absurd h2.1 (by decide)⟩
